import Mathlib

/-!
Formal model of the risk-classification core of the EduRsik-Analysis
repository (`src/utils.py` and `src/model.py`) and proofs of its specified
properties.

Modelling conventions:
- real-valued marks are modelled as rationals (`ℚ`);
- the scikit-learn estimator is an abstract model type `M`; its operations
  (`fit`, `predict`, `predict_proba`, `train_test_split`,
  `feature_importances_`) are supplied as explicit functions bundled in
  `MLOps M`, each returning `Option` so that a `none` models the Python call
  raising an exception (which `train_model` / `predict_risk` catch);
- a pandas `DataFrame` is a list of column names plus a list of rows, where a
  row is an association list from column name to cell and a missing value
  (`NaN`) is the cell `Cell.na`;
- the Streamlit display calls (`st.warning`, `st.error`, ...) only render
  messages and are dropped; the model blob file is an explicit value
  (`Option (Option (Blob M))`: outer `none` = file absent, inner `none` =
  blob that fails to deserialize).
-/

namespace EduRisk

/-- Bucketer from `utils.py` `get_risk_level` (lines 33-42): first-match-wins
thresholds 45 / 35 / 25 over the total marks, else "Failure". -/
def get_risk_level (total_marks : ℚ) : String :=
  if total_marks ≥ 45 then "Low"
  else if total_marks ≥ 35 then "Medium"
  else if total_marks ≥ 25 then "High"
  else "Failure"

/-- Ordinal rank of the four risk labels: Failure < High < Medium < Low. -/
def riskRank : String → ℕ
  | "High" => 1
  | "Medium" => 2
  | "Low" => 3
  | _ => 0

/-- Derived per-record fields computed by `generate_sample_data`
(`utils.py` lines 127-133): the total of the five component scores, the risk
label obtained by applying `get_risk_level` to the total, and the risk score
`total / 60 * 100`. -/
structure Derived where
  total_internal_marks : ℚ
  risk_level : String
  risk_score : ℚ

/-- Computation of the three derived fields from the five component scores,
mirroring `utils.py` lines 127-133. -/
def computeDerived (cat1 cat2 assignment attendance quiz : ℚ) : Derived :=
  let total := cat1 + cat2 + assignment + attendance + quiz
  { total_internal_marks := total
    risk_level := get_risk_level total
    risk_score := total / 60 * 100 }

/-- Cell of a pandas DataFrame: a numeric value, a string value, or a
missing value (NaN). -/
inductive Cell
  | num (q : ℚ)
  | str (s : String)
  | na

deriving instance DecidableEq for Cell

/-- Row of a DataFrame: association list from column name to cell. -/
abbrev Row := List (String × Cell)

/-- Tabular dataset handed to `train_model`: column names plus rows. -/
structure DataFrame where
  cols : List String
  rows : List Row

/-- Value of column `c` in row `r`; a column absent from the row reads as
missing. -/
def cellOf (r : Row) (c : String) : Cell := (r.lookup c).getD Cell.na

/-- Pandas `notna`: true unless the cell is missing. -/
def notna : Cell → Bool
  | Cell.na => false
  | _ => true

/-- Numeric content of a cell (0 for non-numeric cells; training only reads
it on cells that passed the non-missing mask). -/
def cellNum : Cell → ℚ
  | Cell.num q => q
  | _ => 0

/-- String content of a cell ("" for non-string cells). -/
def cellStr : Cell → String
  | Cell.str s => s
  | _ => ""

/-- Operations of the scikit-learn estimator over an abstract fitted-model
type `M`. Each fallible operation returns `Option`: `none` models the call
raising an exception. In particular `split` models
`train_test_split(..., stratify=y)`, which raises (documented scikit-learn
behavior) when the least populated class has fewer than 2 members or the
test partition is smaller than the number of classes. -/
structure MLOps (M : Type) where
  predict : M → List ℚ → Option ℤ
  predictProba : M → List ℚ → Option (List ℚ)
  fit : M → List (List ℚ) → List ℤ → Option M
  split : List (List ℚ) → List ℤ →
    Option (List (List ℚ) × List (List ℚ) × List ℤ × List ℤ)
  featureImportances : M → List ℚ

/-- In-memory state of `StudentPredictor` (`model.py` lines 13-17): the
estimator, the trained flag, the label-encoder dictionary (modelled by its
only possible entry: the ordered class list under key risk_level; `none` =
key absent, as in the initial empty dict), and the feature-importance table
(`none` = Python `None`), stored sorted by descending importance. -/
structure Predictor (M : Type) where
  model : M
  is_trained : Bool
  label_encoders : Option (List String)
  feature_importance : Option (List (String × ℚ))

deriving instance DecidableEq for Predictor

/-- `StudentPredictor.__init__`: a fresh estimator `m`, untrained, empty
encoder dict, no feature-importance table. -/
def initPredictor {M : Type} (m : M) : Predictor M :=
  { model := m, is_trained := false, label_encoders := none,
    feature_importance := none }

/-- Lexicographic comparison of strings as their character lists, used to
model numpy's sorting of the label classes. -/
def charsLt : List Char → List Char → Bool
  | [], [] => false
  | [], _ :: _ => true
  | _ :: _, [] => false
  | a :: as, b :: bs =>
    if a < b then true else if b < a then false else charsLt as bs

/-- Insert a string into a sorted duplicate-free list, keeping it sorted and
duplicate-free. -/
def insertSortedU (s : String) : List String → List String
  | [] => [s]
  | t :: ts =>
    if s = t then t :: ts
    else if charsLt s.data t.data then s :: t :: ts
    else t :: insertSortedU s ts

/-- `LabelEncoder.fit`: the classes are the sorted unique labels. -/
def leClasses (labels : List String) : List String :=
  labels.foldr insertSortedU []

/-- `LabelEncoder.transform` of one label: its index in the class list. -/
def leTransform (classes : List String) (s : String) : ℤ :=
  match classes with
  | [] => 0
  | t :: ts => if t = s then 0 else leTransform ts s + 1

/-- `LabelEncoder.inverse_transform` of one code: index into the class list;
an out-of-range code raises (`none`). -/
def leInverse (classes : List String) (code : ℤ) : Option String :=
  if h : 0 ≤ code ∧ code.toNat < classes.length then
    some (classes.get ⟨code.toNat, h.2⟩)
  else none

/-- Insert into a list sorted by descending importance, modelling
`sort_values('importance', ascending=False)`. -/
def insertDesc (x : String × ℚ) : List (String × ℚ) → List (String × ℚ)
  | [] => [x]
  | y :: ys => if y.2 ≤ x.2 then x :: y :: ys else y :: insertDesc x ys

/-- Feature-importance table sorted by descending importance. -/
def sortImportanceDesc (l : List (String × ℚ)) : List (String × ℚ) :=
  l.foldr insertDesc []

/-- Canonical five component columns (`model.py` line 26). -/
def feature_columns : List String :=
  ["cat1_marks", "cat2_marks", "assignment_marks", "attendance_marks",
   "quiz_marks"]

/-- Component columns present in the dataset, in canonical order
(`model.py` line 27). -/
def availableFeatures (data : DataFrame) : List String :=
  feature_columns.filter (fun c => c ∈ data.cols)

/-- Rows surviving the missing-value mask (`model.py` lines 40-42): all
selected feature cells and the label cell are non-missing. -/
def cleanRows (data : DataFrame) : List Row :=
  data.rows.filter (fun r =>
    (availableFeatures data).all (fun c => notna (cellOf r c)) &&
      notna (cellOf r "risk_level"))

/-- Body of `StudentPredictor.train_model` after the precondition checks
(`model.py` lines 50-77): encoder assignment, stratified split, fit,
held-out evaluation, feature-importance table, trained flag. The source
assigns `self.label_encoders['risk_level'] = le` (line 52) before the
fallible split/fit/evaluate steps, so those failures return the state with
the encoder already replaced. -/
def trainCore {M : Type} (ops : MLOps M) (p : Predictor M)
    (av : List String) (classes : List String)
    (X : List (List ℚ)) (yEnc : List ℤ) : Bool × Predictor M :=
  let p1 : Predictor M := { p with label_encoders := some classes }
  match ops.split X yEnc with
  | none => (false, p1)
  | some (Xtr, Xte, ytr, _) =>
    match ops.fit p.model Xtr ytr with
    | none => (false, p1)
    | some m =>
      let p2 : Predictor M := { p1 with model := m }
      match Xte.mapM (ops.predict m) with
      | none => (false, p2)
      | some _ =>
        let fi := sortImportanceDesc (av.zip (ops.featureImportances m))
        (true, { p2 with feature_importance := some fi,
                         is_trained := true })

/-- `StudentPredictor.train_model` (`model.py` lines 19-82). The whole body
is wrapped in try/except returning False, so the Lean function is total and
returns the success flag together with the predictor state after the call.
Display calls are dropped; `accuracy_score` is informational and its value
is discarded, but the evaluation step `self.model.predict(X_test)` is kept
as a fallible step since it sits inside the try block. -/
def train_model {M : Type} (ops : MLOps M) (p : Predictor M)
    (data : DataFrame) : Bool × Predictor M :=
  if data.rows.length < 10 then (false, p)
  else if (availableFeatures data).length < 3 then (false, p)
  else if "risk_level" ∈ data.cols then
    let clean := cleanRows data
    if clean.length < 10 then (false, p)
    else
      let labels := clean.map (fun r => cellStr (cellOf r "risk_level"))
      let classes := leClasses labels
      trainCore ops p (availableFeatures data) classes
        (clean.map (fun r =>
          (availableFeatures data).map (fun c => cellNum (cellOf r c))))
        (labels.map (leTransform classes))
  else (false, p)

/-- Feature vector built for inference (`model.py` lines 90-91): the stored
feature-importance order, each name looked up in the input mapping with
default 0. -/
def buildVector (fi : List (String × ℚ)) (x : List (String × ℚ)) :
    List ℚ :=
  fi.map (fun fc => ((x.lookup fc.1).getD 0))

/-- Python `max` over a list (raises on the empty list, hence `Option`). -/
def listMax : List ℚ → Option ℚ
  | [] => none
  | h :: t => some (t.foldl max h)

/-- Error label returned when inference raises. The Python code appends the
exception text (`f"Prediction error: {e}"`); the embedding keeps the fixed
prefix. -/
def predictionError : String := "Prediction error"

/-- `StudentPredictor.predict_risk` (`model.py` lines 84-103): sentinel when
untrained, otherwise a try block building the feature vector, running the
single-row inference, decoding the label and taking the maximum vote
probability times 100; any raising step yields the error label with 0. -/
def predict_risk {M : Type} (ops : MLOps M) (p : Predictor M)
    (x : List (String × ℚ)) : String × ℚ :=
  if p.is_trained then
    match p.feature_importance with
    | none => (predictionError, 0)
    | some fi =>
      let arr := buildVector fi x
      match ops.predict p.model arr with
      | none => (predictionError, 0)
      | some code =>
        match ops.predictProba p.model arr with
        | none => (predictionError, 0)
        | some proba =>
          match p.label_encoders with
          | none => (predictionError, 0)
          | some classes =>
            match leInverse classes code with
            | none => (predictionError, 0)
            | some label =>
              match listMax proba with
              | none => (predictionError, 0)
              | some mx => (label, mx * 100)
  else ("Model not trained", 0)

/-- Serialized blob written by `save_model`: a dictionary with four keys.
Each field is `some v` when the key is present; a hand-crafted or foreign
blob may miss keys, which `load_model` hits as a `KeyError`. -/
structure Blob (M : Type) where
  model : Option M
  label_encoders : Option (Option (List String))
  feature_importance : Option (Option (List (String × ℚ)))
  is_trained : Option Bool

/-- `StudentPredictor.save_model` (`model.py` lines 105-118): dumps the four
fields under their four keys, with no precondition on the trained flag.
Directory creation and the `joblib.dump` I/O (whose failure is caught and
reported as False) are outside the pure embedding; the function returns the
success flag and the blob written. -/
def save_model {M : Type} (p : Predictor M) : Bool × Blob M :=
  (true,
    { model := some p.model
      label_encoders := some p.label_encoders
      feature_importance := some p.feature_importance
      is_trained := some p.is_trained })

/-- `StudentPredictor.load_model` (`model.py` lines 120-133). The file
argument: `none` = file absent (`os.path.exists` false, return False);
`some none` = file present but `joblib.load` raises; `some (some b)` = blob
`b` deserialized. The four fields are then read and assigned one at a time,
and a missing key raises `KeyError`, caught by the surrounding try/except
after the earlier assignments have already happened. -/
def load_model {M : Type} (file : Option (Option (Blob M)))
    (p : Predictor M) : Bool × Predictor M :=
  match file with
  | none => (false, p)
  | some none => (false, p)
  | some (some b) =>
    match b.model with
    | none => (false, p)
    | some m =>
      let p1 : Predictor M := { p with model := m }
      match b.label_encoders with
      | none => (false, p1)
      | some le =>
        let p2 : Predictor M := { p1 with label_encoders := le }
        match b.feature_importance with
        | none => (false, p2)
        | some fi =>
          let p3 : Predictor M := { p2 with feature_importance := fi }
          match b.is_trained with
          | none => (false, p3)
          | some t => (true, { p3 with is_trained := t })

/-- Concrete estimator operations over `M = ℕ` used to evaluate theorems at
concrete inputs. -/
def natOps : MLOps ℕ :=
  { predict := fun _ _ => some 1
    predictProba := fun _ _ => some [1/4, 3/4]
    fit := fun m _ _ => some (m + 1)
    split := fun X y => some (X, [], y, [])
    featureImportances := fun _ => [3/5, 1/5, 1/10, 1/10, 0] }

/-- Estimator operations whose `train_test_split` raises, as scikit-learn's
does when stratification is impossible (least populated class below 2). -/
def splitFailOps : MLOps ℕ :=
  { predict := fun _ _ => some 0
    predictProba := fun _ _ => some [1]
    fit := fun m _ _ => some (m + 1)
    split := fun _ _ => none
    featureImportances := fun _ => [1, 0, 0, 0, 0] }

/-- Row with the five component scores and a risk label. -/
def mkRow (c1 c2 a at_ q : ℚ) (lvl : String) : Row :=
  [("cat1_marks", Cell.num c1), ("cat2_marks", Cell.num c2),
   ("assignment_marks", Cell.num a), ("attendance_marks", Cell.num at_),
   ("quiz_marks", Cell.num q), ("risk_level", Cell.str lvl)]

/-- Ten-row complete dataset with a singleton label class ("Failure" appears
once): the situation in which scikit-learn's stratified split raises. -/
def singletonClassDF : DataFrame :=
  { cols := feature_columns ++ ["risk_level"]
    rows := List.replicate 9 (mkRow 8 7 12 4 8 "Low") ++
      [mkRow 2 2 3 1 2 "Failure"] }

/-- Empty dataset. -/
def emptyDF : DataFrame := { cols := [], rows := [] }

/-- Trained predictor state used to evaluate `predict_risk` concretely. -/
def trainedP : Predictor ℕ :=
  { model := 1, is_trained := true,
    label_encoders := some ["High", "Low"],
    feature_importance := some [("quiz_marks", 3/5), ("cat1_marks", 2/5)] }

/-- Deserialized blob carrying the model and label-encoder keys but no
feature_importance key (as a truncated or foreign file would): reading
`model_data['feature_importance']` raises `KeyError` after the first two
assignments have happened. -/
def partialBlob : Blob ℕ :=
  { model := some 7, label_encoders := some (some ["Low"]),
    feature_importance := none, is_trained := none }

/-- C1: `get_risk_level` is total (it is a Lean function) and returns exactly
one of the four labels by first-match-wins thresholds: "Low" iff
`total ≥ 45`, "Medium" iff `35 ≤ total < 45`, "High" iff `25 ≤ total < 35`,
"Failure" iff `total < 25`, for every rational input, including inputs
outside `[0, 60]`. -/
theorem get_risk_level_spec (t : ℚ) :
    (get_risk_level t = "Low" ∨ get_risk_level t = "Medium" ∨
      get_risk_level t = "High" ∨ get_risk_level t = "Failure") ∧
    (get_risk_level t = "Low" ↔ 45 ≤ t) ∧
    (get_risk_level t = "Medium" ↔ 35 ≤ t ∧ t < 45) ∧
    (get_risk_level t = "High" ↔ 25 ≤ t ∧ t < 35) ∧
    (get_risk_level t = "Failure" ↔ t < 25) := by
  unfold get_risk_level
  split_ifs with h1 h2 h3 <;>
    refine ⟨by simp, ?_, ?_, ?_, ?_⟩ <;> simp <;>
      first
        | linarith
        | (intro h; linarith)
        | (constructor <;> linarith)

/-- C7: `get_risk_level` is monotone for the risk total order: for all
`t1 ≤ t2`, `riskRank (get_risk_level t1) ≤ riskRank (get_risk_level t2)`,
with rank(Failure) < rank(High) < rank(Medium) < rank(Low). -/
theorem get_risk_level_monotone (t1 t2 : ℚ) (h : t1 ≤ t2) :
    riskRank (get_risk_level t1) ≤ riskRank (get_risk_level t2) := by
  unfold get_risk_level
  split_ifs <;> simp [riskRank] <;> linarith

/-- C7 witness: the monotonicity theorem applied at the concrete pair
`20 ≤ 40`. -/
theorem get_risk_level_monotone_witness :
    riskRank (get_risk_level 20) ≤ riskRank (get_risk_level 40) :=
  get_risk_level_monotone 20 40 (by norm_num)

/-- C9: for every record the derived fields satisfy
`total = cat1 + cat2 + assignment + attendance + quiz`,
`risk_level = get_risk_level total`, and `risk_score = total / 60 * 100`,
which lies in `[0, 100]` when the components are within their ranges
(cat1, cat2, quiz in [0,10]; assignment in [0,15]; attendance in [0,5]). -/
theorem computeDerived_spec (c1 c2 a at_ q : ℚ)
    (h1 : 0 ≤ c1 ∧ c1 ≤ 10) (h2 : 0 ≤ c2 ∧ c2 ≤ 10)
    (h3 : 0 ≤ a ∧ a ≤ 15) (h4 : 0 ≤ at_ ∧ at_ ≤ 5)
    (h5 : 0 ≤ q ∧ q ≤ 10) :
    (computeDerived c1 c2 a at_ q).total_internal_marks = c1 + c2 + a + at_ + q ∧
    (computeDerived c1 c2 a at_ q).risk_level =
      get_risk_level (c1 + c2 + a + at_ + q) ∧
    (computeDerived c1 c2 a at_ q).risk_score =
      (c1 + c2 + a + at_ + q) / 60 * 100 ∧
    0 ≤ (computeDerived c1 c2 a at_ q).risk_score ∧
    (computeDerived c1 c2 a at_ q).risk_score ≤ 100 := by
  obtain ⟨h1l, h1r⟩ := h1
  obtain ⟨h2l, h2r⟩ := h2
  obtain ⟨h3l, h3r⟩ := h3
  obtain ⟨h4l, h4r⟩ := h4
  obtain ⟨h5l, h5r⟩ := h5
  have hscore : (computeDerived c1 c2 a at_ q).risk_score =
      (c1 + c2 + a + at_ + q) * (5 / 3) := by
    show (c1 + c2 + a + at_ + q) / 60 * 100 = _
    ring
  refine ⟨rfl, rfl, rfl, ?_, ?_⟩ <;> rw [hscore] <;> nlinarith

/-- C9 witness: the derived-field theorem applied at components summing to 30
(bucket High, risk score exactly 50) and at components summing to 20 (bucket
Failure, risk score 100/3, which displays as 33.3 at one decimal:
`⌊100/3 * 10⌋ = 333`). -/
theorem computeDerived_spec_witness :
    (computeDerived 6 6 10 3 5).risk_level = "High" ∧
    (computeDerived 6 6 10 3 5).risk_score = 50 ∧
    (computeDerived 4 4 6 2 4).risk_level = "Failure" ∧
    (computeDerived 4 4 6 2 4).risk_score = 100 / 3 ∧
    Int.floor ((computeDerived 4 4 6 2 4).risk_score * 10) = 333 := by
  have h30 := computeDerived_spec 6 6 10 3 5 (by norm_num) (by norm_num)
    (by norm_num) (by norm_num) (by norm_num)
  have h20 := computeDerived_spec 4 4 6 2 4 (by norm_num) (by norm_num)
    (by norm_num) (by norm_num) (by norm_num)
  refine ⟨?_, ?_, ?_, ?_, ?_⟩
  · rw [h30.2.1]; unfold get_risk_level; norm_num
  · rw [h30.2.2.1]; norm_num
  · rw [h20.2.1]; unfold get_risk_level; norm_num
  · rw [h20.2.2.1]; norm_num
  · rw [h20.2.2.1]
    rw [show ((4:ℚ) + 4 + 6 + 2 + 4) / 60 * 100 * 10 = 1000 / 3 by norm_num]
    rw [Int.floor_eq_iff]
    constructor <;> norm_num

/-- C2: persist/restore round-trip: loading the blob saved from predictor
`p` onto any predictor `q` succeeds, restores exactly `p`'s state, and
`predict_risk` on the restored predictor agrees with `p` bit-for-bit (label
and confidence) for every input mapping. -/
theorem save_load_round_trip {M : Type} (ops : MLOps M) (p q : Predictor M)
    (x : List (String × ℚ)) :
    (save_model p).1 = true ∧
    (load_model (some (some (save_model p).2)) q).1 = true ∧
    (load_model (some (some (save_model p).2)) q).2 = p ∧
    predict_risk ops (load_model (some (some (save_model p).2)) q).2 x =
      predict_risk ops p x :=
  ⟨rfl, rfl, rfl, rfl⟩

/-- C8: on a predictor whose trained flag is false (as after `__init__`),
`predict_risk` returns the sentinel ("Model not trained", 0) for every
input mapping, as a returned value rather than a raised fault. -/
theorem predict_risk_untrained {M : Type} (ops : MLOps M) (p : Predictor M)
    (x : List (String × ℚ)) (h : p.is_trained = false) :
    predict_risk ops p x = ("Model not trained", 0) := by
  unfold predict_risk
  rw [h]
  simp

/-- C8 witness: the sentinel theorem applied to a freshly initialized
predictor and a concrete input mapping. -/
theorem predict_risk_untrained_witness :
    predict_risk natOps (initPredictor 0) [("quiz_marks", 9)] =
      ("Model not trained", 0) :=
  predict_risk_untrained natOps (initPredictor 0) [("quiz_marks", 9)] rfl

/-- C10: saving a never-trained predictor succeeds and the blob stores
is_trained = False together with the empty encoder map and the absent
feature-importance table; loading that blob onto any predictor yields an
untrained predictor, on which `predict_risk` still returns the sentinel for
every input mapping. -/
theorem untrained_round_trip {M : Type} (ops : MLOps M) (m : M)
    (q : Predictor M) (x : List (String × ℚ)) :
    (save_model (initPredictor m)).1 = true ∧
    (save_model (initPredictor m)).2.is_trained = some false ∧
    (save_model (initPredictor m)).2.label_encoders = some none ∧
    (save_model (initPredictor m)).2.feature_importance = some none ∧
    (load_model (some (some (save_model (initPredictor m)).2)) q).1 = true ∧
    (load_model (some (some (save_model (initPredictor m)).2)) q).2.is_trained
      = false ∧
    predict_risk ops
      (load_model (some (some (save_model (initPredictor m)).2)) q).2 x =
      ("Model not trained", 0) :=
  ⟨rfl, rfl, rfl, rfl, rfl, rfl, rfl⟩

/-- C5: `train_model` returns failure and leaves the predictor exactly as it
was (so Untrained stays Untrained) whenever the dataset has fewer than 10
rows, fewer than 3 of the 5 canonical component columns are present, the
risk_level column is absent, or fewer than 10 rows remain after dropping
rows with missing values; in particular a dataset of at most 9 rows always
fails. -/
theorem train_model_preconditions {M : Type} (ops : MLOps M)
    (p : Predictor M) (data : DataFrame)
    (h : data.rows.length < 10 ∨ (availableFeatures data).length < 3 ∨
      "risk_level" ∉ data.cols ∨ (cleanRows data).length < 10) :
    train_model ops p data = (false, p) := by
  by_cases h1 : data.rows.length < 10
  · simp [train_model, h1]
  · by_cases h2 : (availableFeatures data).length < 3
    · simp [train_model, h1, h2]
    · by_cases h3 : "risk_level" ∈ data.cols
      · have h4 : (cleanRows data).length < 10 := by tauto
        simp [train_model, h1, h2, h3, h4]
      · simp [train_model, h1, h2, h3]

/-- C5 witness: the precondition theorem applied to the empty dataset. -/
theorem train_model_preconditions_witness :
    train_model natOps (initPredictor 0) emptyDF =
      (false, initPredictor 0) :=
  train_model_preconditions natOps (initPredictor 0) emptyDF
    (Or.inl (by simp [emptyDF]))

/-- C4 counterexample: a deserialized blob holding the model and
label-encoder keys but no feature_importance key makes `load_model` return
failure after having already overwritten two fields: the predictor after
the failing restore differs from its state before the call, refuting
all-or-nothing replacement. -/
theorem load_model_not_atomic_counterexample :
    (load_model (some (some partialBlob)) (initPredictor 0)).1 = false ∧
    (load_model (some (some partialBlob)) (initPredictor 0)).2 ≠
      initPredictor 0 := by
  refine ⟨rfl, fun h => ?_⟩
  have hm : (load_model (some (some partialBlob)) (initPredictor 0)).2.model
      = 7 := rfl
  rw [h] at hm
  exact absurd hm (by norm_num [initPredictor])

/-- C4 amended: a missing file and a blob that fails to deserialize are
normal failures that leave the predictor unchanged, and every failing
restore leaves the trained flag unchanged; but a deserialized blob missing
a dictionary key fails only after the fields preceding the first missing
key (in the order model, label encoders, feature importance, trained flag)
have already been replaced, so the restore is not all-or-nothing. -/
theorem load_model_failure_spec {M : Type} (file : Option (Option (Blob M)))
    (q : Predictor M) (h : (load_model file q).1 = false) :
    (load_model file q).2.is_trained = q.is_trained ∧
    load_model (none : Option (Option (Blob M))) q = (false, q) ∧
    load_model (some (none : Option (Blob M))) q = (false, q) ∧
    (∀ b : Blob M, file = some (some b) → b.model = none →
      load_model file q = (false, q)) := by
  refine ⟨?_, rfl, rfl, ?_⟩
  · rcases file with _ | (_ | b)
    · rfl
    · rfl
    · obtain ⟨bm, bl, bf, bt⟩ := b
      rcases bm with _ | m
      · rfl
      · rcases bl with _ | le
        · rfl
        · rcases bf with _ | fi
          · rfl
          · rcases bt with _ | t
            · rfl
            · exact absurd h (by simp [load_model])
  · intro b hb hm
    subst hb
    obtain ⟨bm, bl, bf, bt⟩ := b
    cases hm
    rfl

/-- C4 witness: the amended theorem applied to the partially-valid blob,
checking that even that failing restore does not change the trained flag. -/
theorem load_model_failure_spec_witness :
    (load_model (some (some partialBlob)) (initPredictor 0)).2.is_trained =
      (initPredictor (0 : ℕ)).is_trained :=
  (load_model_failure_spec (some (some partialBlob)) (initPredictor 0)
    rfl).1

/-- C3 counterexample: training the fresh predictor on a complete ten-row
dataset whose stratified split raises (its "Failure" class has a single
member) returns failure, yet the label-encoder map differs from its state
before the call, refuting exact preservation of all fields on failure. -/
theorem train_model_not_atomic_counterexample :
    (train_model splitFailOps (initPredictor 0) singletonClassDF).1 =
      false ∧
    (train_model splitFailOps (initPredictor 0)
        singletonClassDF).2.label_encoders ≠
      (initPredictor (0 : ℕ)).label_encoders := by
  decide

/-- C3 amended: `train_model` never raises (it is a total function
returning the success flag), every early-exit precondition failure leaves
the predictor exactly unchanged, and on every failure path the trained flag
and the feature-importance table keep their prior values — but the
label-encoder map (and, once fitting has succeeded, the estimator) may
already have been replaced when a later step raises, so exact preservation
of all four fields does not hold. -/
theorem train_model_failure_spec {M : Type} (ops : MLOps M)
    (p : Predictor M) (data : DataFrame)
    (h : (train_model ops p data).1 = false) :
    (train_model ops p data).2.is_trained = p.is_trained ∧
    (train_model ops p data).2.feature_importance = p.feature_importance ∧
    (data.rows.length < 10 → (train_model ops p data).2 = p) := by
  by_cases h1 : data.rows.length < 10
  · simp [train_model, h1]
  · by_cases h2 : (availableFeatures data).length < 3
    · simp [train_model, h1, h2]
    · by_cases h3 : "risk_level" ∈ data.cols
      · by_cases h4 : (cleanRows data).length < 10
        · simp [train_model, h1, h2, h3, h4]
        · have hcore : ∀ (av classes : List String) (X : List (List ℚ))
              (yEnc : List ℤ),
              (trainCore ops p av classes X yEnc).1 = false →
              (trainCore ops p av classes X yEnc).2.is_trained =
                  p.is_trained ∧
                (trainCore ops p av classes X yEnc).2.feature_importance =
                  p.feature_importance := by
            intro av classes X yEnc
            unfold trainCore
            dsimp only
            split
            · intro hc
              exact ⟨rfl, rfl⟩
            · split
              · intro hc
                exact ⟨rfl, rfl⟩
              · split
                · intro hc
                  exact ⟨rfl, rfl⟩
                · intro hc
                  simp at hc
          have hun : train_model ops p data =
              trainCore ops p (availableFeatures data)
                (leClasses ((cleanRows data).map
                  (fun r => cellStr (cellOf r "risk_level"))))
                ((cleanRows data).map (fun r =>
                  (availableFeatures data).map
                    (fun c => cellNum (cellOf r c))))
                (((cleanRows data).map
                    (fun r => cellStr (cellOf r "risk_level"))).map
                  (leTransform (leClasses ((cleanRows data).map
                    (fun r => cellStr (cellOf r "risk_level")))))) := by
            simp [train_model, h1, h2, h3, h4]
          rw [hun] at h ⊢
          exact ⟨(hcore _ _ _ _ h).1, (hcore _ _ _ _ h).2,
            fun hlt => absurd hlt h1⟩
      · simp [train_model, h1, h2, h3]

/-- C3 amended witness: the failure-preservation theorem applied to the
concrete failing train on the singleton-class dataset. -/
theorem train_model_failure_spec_witness :
    (train_model splitFailOps (initPredictor 0)
        singletonClassDF).2.is_trained =
      (initPredictor (0 : ℕ)).is_trained :=
  (train_model_failure_spec splitFailOps (initPredictor 0) singletonClassDF
    (by decide)).1

/-- Helper: a left fold of `max` over a list lands on the seed or on a list
element. -/
theorem foldl_max_mem (t : List ℚ) (h0 : ℚ) : t.foldl max h0 ∈ h0 :: t := by
  induction t generalizing h0 with
  | nil => simp
  | cons a t ih =>
    rw [List.foldl_cons]
    rcases List.mem_cons.1 (ih (max h0 a)) with h2 | h2
    · rw [h2]
      rcases max_choice h0 a with hm | hm <;> rw [hm] <;> simp
    · simp [h2]

/-- Helper: `listMax` of a list is an element of it. -/
theorem listMax_mem {l : List ℚ} {mx : ℚ} (h : listMax l = some mx) :
    mx ∈ l := by
  cases l with
  | nil => cases h
  | cons h0 t =>
    have he : t.foldl max h0 = mx := Option.some.inj h
    rw [← he]
    exact foldl_max_mem t h0

/-- C6: on a trained predictor, `predict_risk` builds the feature vector in
the canonical order recorded at training time (the stored
descending-importance table), substituting 0 for every feature name absent
from the input mapping; it ignores unknown input keys; it decodes the
predicted code through the stored class list and returns the maximum vote
probability times 100, which lies in [0, 100] whenever the class
probabilities lie in [0, 1]; and an inference failure is caught and
returned as the error label with confidence 0 instead of propagating. -/
theorem predict_risk_spec {M : Type} (ops : MLOps M) (p : Predictor M)
    (fi : List (String × ℚ)) (classes : List String)
    (x : List (String × ℚ)) (code : ℤ) (proba : List ℚ) (mx : ℚ)
    (k : String) (v : ℚ)
    (hT : p.is_trained = true) (hF : p.feature_importance = some fi)
    (hL : p.label_encoders = some classes) :
    buildVector fi x = fi.map (fun fc => ((x.lookup fc.1).getD 0)) ∧
    (k ∉ fi.map Prod.fst →
      predict_risk ops p ((k, v) :: x) = predict_risk ops p x) ∧
    (ops.predict p.model (buildVector fi x) = none →
      predict_risk ops p x = (predictionError, 0)) ∧
    (ops.predict p.model (buildVector fi x) = some code →
      ops.predictProba p.model (buildVector fi x) = some proba →
      listMax proba = some mx →
      (∀ hc : code.toNat < classes.length, 0 ≤ code →
        predict_risk ops p x = (classes.get ⟨code.toNat, hc⟩, mx * 100)) ∧
      ((∀ q ∈ proba, 0 ≤ q ∧ q ≤ 1) → 0 ≤ mx * 100 ∧ mx * 100 ≤ 100)) := by
  refine ⟨rfl, ?_, ?_, ?_⟩
  · intro hk
    have harr : buildVector fi ((k, v) :: x) = buildVector fi x := by
      unfold buildVector
      refine List.map_congr_left fun fc hfc => ?_
      have hne : fc.1 ≠ k := by
        intro he
        exact hk (he ▸ List.mem_map_of_mem Prod.fst hfc)
      have hbe : (fc.1 == k) = false := beq_false_of_ne hne
      simp [List.lookup, hbe]
    simp only [predict_risk, hT, if_true, hF, harr]
  · intro hnone
    simp [predict_risk, hT, hF, hnone]
  · intro h1 h2 h3
    constructor
    · intro hc hc0
      have hinv : leInverse classes code =
          some (classes.get ⟨code.toNat, hc⟩) := by
        unfold leInverse
        rw [dif_pos ⟨hc0, hc⟩]
      simp [predict_risk, hT, hF, hL, h1, h2, h3, hinv]
    · intro hq
      obtain ⟨hq0, hq1⟩ := hq mx (listMax_mem h3)
      constructor <;> nlinarith

/-- C6 witness: the predict theorem applied at a concrete trained state,
input mapping and estimator; probabilities [1/4, 3/4] give label "Low"
(code 1 through classes ["High", "Low"]) with confidence 75. -/
theorem predict_risk_spec_witness :
    predict_risk natOps trainedP [("quiz_marks", 9)] = ("Low", 75) := by
  have h := predict_risk_spec natOps trainedP
    [("quiz_marks", 3 / 5), ("cat1_marks", 2 / 5)] ["High", "Low"]
    [("quiz_marks", 9)] 1 [1 / 4, 3 / 4] (3 / 4) "unknown_column" 5
    rfl rfl rfl
  have h4 := (h.2.2.2 rfl rfl (by norm_num [listMax, max_def])).1
    (by norm_num) (by norm_num)
  rw [h4]
  norm_num [Prod.mk.injEq]

end EduRisk
